import Mathlib

/-!
Verification development for the PC Build Assistant backend
(`makemypc-backend`): a FastAPI/WebSocket service that multiplexes
concurrent user sessions, each driving a tool-augmented LLM query.

The Python sources are shallowly embedded: strings are `List Char`,
mutable registries become explicit state records, exceptions become
sum types, and external nondeterminism (transport send success, engine
outcome, search-provider outcome, clock readings) is passed in as
parameters.  Session ids (uuid4 in Python) are modelled as a fresh
`Nat` supply (`nextId`), which captures exactly the property the code
relies on: a newly generated id differs from every live one.
-/

namespace MakeMyPC

/-! ## Python string primitives used by `_validate_query`
    (`agent_service.py`, `str.strip` / `str.lower` / `in`). -/

/-- The whitespace characters removed by Python's `str.strip()`. -/
def pyIsSpace (c : Char) : Bool :=
  c = ' ' || c = '\t' || c = '\n' || c = '\r' || c = '\x0b' || c = '\x0c'

/-- Python `str.strip()`: drop leading and trailing whitespace. -/
def pyStrip (s : List Char) : List Char :=
  ((s.dropWhile pyIsSpace).reverse.dropWhile pyIsSpace).reverse

/-- Python `str.lower()` restricted to the ASCII range used by the denylist. -/
def pyLower (s : List Char) : List Char :=
  s.map Char.toLower

/-- `needle` occurs at the head of `hay` (helper for the substring test). -/
def headMatch : List Char → List Char → Bool
  | [], _ => true
  | _ :: _, [] => false
  | a :: as, b :: bs => a = b && headMatch as bs

/-- Python's `needle in hay` substring operator on strings. -/
def occursIn (needle : List Char) : List Char → Bool
  | [] => needle.isEmpty
  | c :: rest => headMatch needle (c :: rest) || occursIn needle rest

/-! ## `PCBuildAgentService._validate_query` (`agent_service.py:174-187`) -/

/-- The denylist of `_validate_query` (`forbidden_terms`). -/
def forbiddenTerms : List (List Char) :=
  ["hack".data, "crack".data, "piracy".data, "illegal".data]

/-- The denylist test of `_validate_query`:
    `any(term in query.lower() for term in forbidden_terms)`. -/
def containsForbidden (q : List Char) : Bool :=
  forbiddenTerms.any (fun t => occursIn t (pyLower q))

/-- `_validate_query`: returns the `ValidationError` message, or `ok`.
    Mirrors the three checks in source order: empty-or-short after
    strip, raw length above 1000, denylisted substring. -/
def validateQuery (q : List Char) : Except String Unit :=
  if q.isEmpty || (pyStrip q).length < 3 then
    .error "Query must be at least 3 characters long"
  else if 1000 < q.length then
    .error "Query cannot exceed 1000 characters"
  else if containsForbidden q then
    .error "Query contains inappropriate content"
  else
    .ok ()

/-! ## `PCBuildAgentService._execute_agent` (`agent_service.py:189-201`) -/

/-- Outcome of the underlying `agent.invoke` call: a normal return, an
    `OutputParserException`, or any other raised exception. -/
inductive InvokeOutcome where
  | returns (output : String)
  | parserError (msg : String)
  | raises (msg : String)
deriving DecidableEq, Repr

/-- The fixed apology string `_execute_agent` returns on an
    `OutputParserException`. -/
def fallbackOutput : String :=
  "I encountered an issue processing your request. Please try rephrasing your PC build question."

/-- `_execute_agent`: parser failures become a successful fallback
    output; every other exception is wrapped into an `AgentError`. -/
def executeAgent : InvokeOutcome → Except String String
  | .returns out => .ok out
  | .parserError _ => .ok fallbackOutput
  | .raises msg => .error ("Agent execution failed: " ++ msg)

/-! ## Exception taxonomy (`exceptions.py`) and the re-raise/wrap logic
    of `PCBuildAgentService.process_query` (`agent_service.py:159-172`). -/

/-- The exceptions that can reach `process_query`'s outer `except`
    clause, each carrying its message.  `rateLimit` is the
    `RateLimitError` subclass of `SearchError`; `other` stands for any
    exception outside the application taxonomy. -/
inductive RawException where
  | validation (msg : String)
  | agent (msg : String)
  | timeout (msg : String)
  | connection (msg : String)
  | search (msg : String)
  | rateLimit (msg : String)
  | other (msg : String)
deriving DecidableEq, Repr

/-- The message carried by an exception (`str(e)`). -/
def RawException.msg : RawException → String
  | .validation m | .agent m | .timeout m | .connection m
  | .search m | .rateLimit m | .other m => m

/-- The `except` clause of `process_query`: `ValidationError`,
    `AgentError` and `TimeoutError` are re-raised as-is; every other
    exception is wrapped into an `AgentError`. -/
def classifyError : RawException → RawException
  | .validation m => .validation m
  | .agent m => .agent m
  | .timeout m => .timeout m
  | e => .agent ("Query processing failed: " ++ e.msg)

/-- An exception is classified when it is one of the three kinds the
    dispatch loop is promised to see from `process_query`. -/
def isClassifiedFailure : RawException → Bool
  | .validation _ => true
  | .agent _ => true
  | .timeout _ => true
  | _ => false

/-! ## `PCBuildAgentService.process_query` (`agent_service.py:106-172`)

    The engine run is external: `createOk` says whether `_create_agent`
    succeeds, and `ExecOutcome` is what the `asyncio.wait_for` around
    `_execute_agent` yields — either the executor completes with an
    `InvokeOutcome`, or the 300-second wall clock expires.  Search
    counters are only touched inside the engine run, so the stats after
    an invocation are a parameter (`statsRun`); on every path that does
    not invoke the engine the stats stay at `stats`. -/

/-- Search statistics dictionary of `DDGSearchTool` (`search_tool.py:39-43`). -/
structure SearchStats where
  total : Nat
  successful : Nat
  failed : Nat
deriving DecidableEq, Repr

/-- Initial `_search_stats` value. -/
def searchStatsInit : SearchStats := ⟨0, 0, 0⟩

/-- `DDGSearchTool.get_stats` (`search_tool.py:154-156`): returns a
    copy of the counters; the caller receives a value, so mutating the
    returned record can never alter the tool's own counters. -/
def getStats (s : SearchStats) : SearchStats :=
  ⟨s.total, s.successful, s.failed⟩

/-- Outcome of the bounded engine execution in `process_query`. -/
inductive ExecOutcome where
  | completes (inv : InvokeOutcome)
  | timesOut
deriving DecidableEq, Repr

/-- Result record of one `process_query` call: the returned output or
    the raised (classified) exception, whether `_create_agent` ran and
    whether the engine was actually invoked, and the search stats
    visible afterwards. -/
structure ProcessOutcome where
  result : Except RawException String
  engineCreated : Bool
  engineInvoked : Bool
  stats : SearchStats
deriving Repr

/-- `process_query`: validate, create the agent, run it under the
    5-minute timeout, and classify every failure on the way out. -/
def processQuery (q : List Char) (createOk : Bool) (exec : ExecOutcome)
    (stats statsRun : SearchStats) : ProcessOutcome :=
  match validateQuery q with
  | .error m => ⟨.error (classifyError (.validation m)), false, false, stats⟩
  | .ok _ =>
    if createOk then
      match exec with
      | .timesOut =>
          ⟨.error (classifyError (.timeout "Agent processing timed out after 5 minutes")),
           true, true, statsRun⟩
      | .completes inv =>
          match executeAgent inv with
          | .ok out => ⟨.ok out, true, true, statsRun⟩
          | .error m => ⟨.error (classifyError (.agent m)), true, true, statsRun⟩
    else
      ⟨.error (classifyError (.agent "Failed to create agent")), true, false, stats⟩

/-! ## `WebSocketCallbackHandler` (`callback_handler.py:50-165`)

    The engine lifecycle events named by the spec and the outbound
    message each handler sends.  (`on_llm_end`, `on_chain_start` and
    `on_chain_end` log but send nothing and are not lifecycle events of
    the spec's mapping.) -/

/-- `MessageType` enum (`models.py:9-17`). -/
inductive MessageKind where
  | query
  | log
  | token
  | finalOutput
  | error
  | heartbeat
  | connectionStatus
deriving DecidableEq, Repr

/-- An outbound WebSocket message (type and content; metadata elided). -/
structure OutMessage where
  type : MessageKind
  content : String
deriving DecidableEq, Repr

/-- The engine lifecycle events of one execution, in the spec's
    vocabulary: engine-start (`on_llm_start`), token-produced
    (`on_llm_new_token`), tool-invocation-start/end/error
    (`on_tool_start/end/error`), engine-error (`on_llm_error`),
    engine-finish (`on_agent_finish`). -/
inductive EngineEvent where
  | engineStart
  | tokenProduced (tok : String)
  | toolStart (input : String)
  | toolEnd
  | toolError (msg : String)
  | engineError (msg : String)
  | engineFinish (output : String)
deriving DecidableEq, Repr

/-- The message each callback sends for its event
    (`callback_handler.py:50-144`). -/
def handleEvent : EngineEvent → OutMessage
  | .engineStart =>
      ⟨.log, "🤖 AI is thinking about your PC build request..."⟩
  | .tokenProduced tok => ⟨.token, tok⟩
  | .toolStart input => ⟨.log, "🔍 Searching for: " ++ input⟩
  | .toolEnd => ⟨.log, "✅ Search completed, analyzing results..."⟩
  | .toolError msg => ⟨.error, "Search error: " ++ msg⟩
  | .engineError msg => ⟨.error, "AI processing error: " ++ msg⟩
  | .engineFinish output => ⟨.finalOutput, output⟩

/-- The handler over one execution: each event raised produces exactly
    the one message its callback sends, in order. -/
def emitAll (events : List EngineEvent) : List OutMessage :=
  events.map handleEvent

/-- The spec's fixed event-to-message-kind mapping (§4.3), written from
    the spec for comparison against `handleEvent`. -/
def specEventKind : EngineEvent → MessageKind
  | .engineStart => .log
  | .tokenProduced _ => .token
  | .toolStart _ => .log
  | .toolEnd => .log
  | .toolError _ => .error
  | .engineError _ => .error
  | .engineFinish _ => .finalOutput

/-! ## `DDGSearchTool.search_async` retry wrapper (`search_tool.py:45-77`)

    The decorator is `retry(stop=stop_after_attempt(3),
    wait=wait_exponential(multiplier=1, min=4, max=10),
    retry=retry_if_exception_type((SearchError, RateLimitError)))`.
    tenacity's `wait_exponential` computes
    `max(max(0, min), min(multiplier * exp_base ** (attempt_number - 1), max))`
    with `exp_base = 2` and the 1-based number of the attempt that just
    failed; delays are in whole seconds here. -/

/-- tenacity `wait_exponential(multiplier, min, max)` at a given
    1-based attempt number. -/
def waitExponential (multiplier minW maxW attemptNumber : Nat) : Nat :=
  max minW (min (multiplier * 2 ^ (attemptNumber - 1)) maxW)

/-- The wait used by `search_async`'s decorator. -/
def searchWait (attemptNumber : Nat) : Nat :=
  waitExponential 1 4 10 attemptNumber

/-- Outcome of one attempt of the `search_async` body: results, or one
    of the exceptions the body raises (`TimeoutError` on
    `asyncio.TimeoutError`, `SearchError` otherwise; `RateLimitError`
    is the `SearchError` subclass named in the retry filter). -/
inductive SearchOutcome where
  | success (resultCount : Nat)
  | searchErr (msg : String)
  | rateLimitErr (msg : String)
  | timeoutErr (msg : String)
deriving DecidableEq, Repr

/-- `retry_if_exception_type((SearchError, RateLimitError))`: the
    outcomes the decorator retries. -/
def isTransient : SearchOutcome → Bool
  | .searchErr _ => true
  | .rateLimitErr _ => true
  | _ => false

/-- Trace of one decorated `search_async` call: how many attempts ran,
    the sleeps between consecutive attempts, and the surfaced outcome. -/
structure RetryTrace where
  attempts : Nat
  waits : List Nat
  result : SearchOutcome
deriving DecidableEq, Repr

/-- The tenacity driver: attempt `n`; on a transient failure with
    `n < maxAttempts`, sleep `searchWait n` and go again.  `fuel`
    bounds the recursion and is instantiated at `maxAttempts`. -/
def retryAux (outcomes : Nat → SearchOutcome) (maxAttempts : Nat) :
    Nat → Nat → RetryTrace
  | 0, n => ⟨1, [], outcomes n⟩
  | fuel + 1, n =>
    let o := outcomes n
    if isTransient o && n < maxAttempts then
      let t := retryAux outcomes maxAttempts fuel (n + 1)
      ⟨t.attempts + 1, searchWait n :: t.waits, t.result⟩
    else
      ⟨1, [], o⟩

/-- One decorated `search_async` call, attempt outcomes supplied by the
    environment: `stop_after_attempt(3)` starting at attempt 1. -/
def searchAsyncRetry (outcomes : Nat → SearchOutcome) : RetryTrace :=
  retryAux outcomes 3 3 1

/-- A list of delays is strictly increasing. -/
def strictlyIncreasing : List Nat → Prop
  | [] => True
  | [_] => True
  | a :: b :: rest => a < b ∧ strictlyIncreasing (b :: rest)

instance : DecidablePred strictlyIncreasing := fun l => by
  induction l with
  | nil => exact .isTrue trivial
  | cons a rest ih =>
    cases rest with
    | nil => exact .isTrue trivial
    | cons b r =>
      exact @instDecidableAnd _ _ _ ih

/-- A list of delays is non-decreasing. -/
def nonDecreasing : List Nat → Prop
  | [] => True
  | [_] => True
  | a :: b :: rest => a ≤ b ∧ nonDecreasing (b :: rest)

instance : DecidablePred nonDecreasing := fun l => by
  induction l with
  | nil => exact .isTrue trivial
  | cons a rest ih =>
    cases rest with
    | nil => exact .isTrue trivial
    | cons b r =>
      exact @instDecidableAnd _ _ _ ih

/-- Counter updates of one `search_async` body run
    (`search_tool.py:52-77`): `total_searches` is incremented on entry,
    then exactly one of `successful_searches` / `failed_searches`
    according to the outcome. -/
def attemptStats (o : SearchOutcome) (s : SearchStats) : SearchStats :=
  let s1 : SearchStats := ⟨s.total + 1, s.successful, s.failed⟩
  match o with
  | .success _ => ⟨s1.total, s1.successful + 1, s1.failed⟩
  | _ => ⟨s1.total, s1.successful, s1.failed + 1⟩

/-- Counters after a sequence of completed attempts. -/
def runStats (os : List SearchOutcome) (s : SearchStats) : SearchStats :=
  os.foldl (fun st o => attemptStats o st) s

/-! ## `ConnectionManager` (`connection_manager.py`)

    Session ids are `Nat`, drawn from the fresh supply `nextId`
    (modelling `uuid.uuid4()`: a new id differs from every live one).
    `activeConnections` holds the keys of the `session_id -> WebSocket`
    dict in insertion order; `connectionInfo` the metadata dict;
    `processingConnections` the processing set; `heartbeatTask` whether
    the heartbeat task handle is non-null.  Timestamps are `Nat`
    seconds.  Transport success/failure is an external parameter. -/

/-- Per-connection metadata (`connection_manager.py:41-46`). -/
structure ConnInfo where
  connectedAt : Nat
  lastActivity : Nat
  messageCount : Nat
deriving DecidableEq, Repr

/-- The state of the `ConnectionManager` singleton. -/
structure ManagerState where
  activeConnections : List Nat
  connectionInfo : List (Nat × ConnInfo)
  processingConnections : List Nat
  heartbeatTask : Bool
  nextId : Nat
deriving DecidableEq, Repr

/-- `ConnectionConfig.MAX_CONNECTIONS` (`config.py:51`, default 100). -/
def MAX_CONNECTIONS : Nat := 100

/-- `ConnectionConfig.CONNECTION_TIMEOUT` (`config.py:52`, 300 seconds). -/
def CONNECTION_TIMEOUT : Nat := 300

/-- `ConnectionManager.is_processing` (`connection_manager.py:126-128`). -/
def isProcessing (s : ManagerState) (sid : Nat) : Bool :=
  decide (sid ∈ s.processingConnections)

/-- `ConnectionManager.set_processing` (`connection_manager.py:130-135`):
    set `add` / `discard`. -/
def setProcessing (s : ManagerState) (sid : Nat) (b : Bool) : ManagerState :=
  if b then
    if sid ∈ s.processingConnections then s
    else { s with processingConnections := sid :: s.processingConnections }
  else
    { s with processingConnections := s.processingConnections.filter (· ≠ sid) }

/-- Metadata lookup for a session. -/
def lookupInfo (s : ManagerState) (sid : Nat) : Option ConnInfo :=
  (s.connectionInfo.find? (fun p => p.1 = sid)).map (·.2)

/-- The clean-up block of `ConnectionManager.disconnect`
    (`connection_manager.py:77-80`): delete the session from both
    dicts and discard it from the processing set. -/
def disconnectCore (s : ManagerState) (sid : Nat) : ManagerState :=
  { s with
    activeConnections := s.activeConnections.filter (· ≠ sid),
    connectionInfo := s.connectionInfo.filter (fun p => p.1 ≠ sid),
    processingConnections := s.processingConnections.filter (· ≠ sid) }

/-- `ConnectionManager.disconnect` (`connection_manager.py:67-89`): if
    the session is live, close the transport (errors swallowed), run
    the clean-up block, and cancel the heartbeat task when no
    connection remains. -/
def disconnect (s : ManagerState) (sid : Nat) : ManagerState :=
  if sid ∈ s.activeConnections then
    if (disconnectCore s sid).activeConnections.length = 0 ∧
        (disconnectCore s sid).heartbeatTask = true then
      { disconnectCore s sid with heartbeatTask := false }
    else
      disconnectCore s sid
  else
    s

/-- Result of `ConnectionManager.connect` (`connection_manager.py:27-65`). -/
inductive ConnectResult where
  | admitted (sessionId : Nat)
  | refused (closeCode : Nat) (reason : String)
  | welcomeFailed
deriving DecidableEq, Repr

/-- Update of one metadata entry on a successful send
    (`connection_manager.py:101-104`): refresh `last_activity`, bump
    `message_count`. -/
def touchEntry (sid now : Nat) (p : Nat × ConnInfo) : Nat × ConnInfo :=
  if p.1 = sid then (p.1, ⟨p.2.connectedAt, now, p.2.messageCount + 1⟩) else p

/-- `_send_to_connection` metadata update on a successful send. -/
def touchActivity (s : ManagerState) (sid now : Nat) : ManagerState :=
  { s with connectionInfo := s.connectionInfo.map (touchEntry sid now) }

/-- `_send_to_connection` (`connection_manager.py:91-115`): unknown
    session raises; a successful send refreshes `last_activity` and the
    message counter; a failed send disconnects the session and raises. -/
inductive SendResult where
  | ok
  | notFound
  | failed
deriving DecidableEq, Repr

/-- One `_send_to_connection` call; `sendOk` is whether the transport
    accepts the frame. -/
def sendTo (s : ManagerState) (sid : Nat) (sendOk : Bool) (now : Nat) :
    SendResult × ManagerState :=
  if sid ∈ s.activeConnections then
    if sendOk then (.ok, touchActivity s sid now)
    else (.failed, disconnect s sid)
  else
    (.notFound, s)

/-- `ConnectionManager.connect`: accept, check capacity (refusing with
    close code 1013 and a `ConnectionError`), register the session,
    start the heartbeat task on the first connection, and send the
    welcome message (whose failure disconnects the fresh session). -/
def connect (s : ManagerState) (welcomeOk : Bool) (now : Nat) :
    ConnectResult × ManagerState :=
  if MAX_CONNECTIONS ≤ s.activeConnections.length then
    (.refused 1013 "Server at capacity", s)
  else
    let sid := s.nextId
    let s1 : ManagerState :=
      { activeConnections := s.activeConnections ++ [sid],
        connectionInfo := s.connectionInfo ++ [(sid, ⟨now, now, 0⟩)],
        processingConnections := s.processingConnections,
        heartbeatTask :=
          if s.activeConnections.length + 1 = 1 then true else s.heartbeatTask,
        nextId := s.nextId + 1 }
    if welcomeOk then (.admitted sid, touchActivity s1 sid now)
    else (.welcomeFailed, disconnect s1 sid)

/-- `_cleanup_stale_connections` stale set (`connection_manager.py:206-214`):
    sessions whose idle time strictly exceeds the window. -/
def staleIds (s : ManagerState) (now : Nat) : List Nat :=
  (s.connectionInfo.filter
    (fun p => CONNECTION_TIMEOUT < now - p.2.lastActivity)).map (·.1)

/-- `_cleanup_stale_connections` (`connection_manager.py:206-218`):
    disconnect every stale session. -/
def cleanupStale (s : ManagerState) (now : Nat) : ManagerState :=
  (staleIds s now).foldl disconnect s

/-- Repeated stale-cleanup scans at the given times (the cleanup phase
    of successive heartbeat cycles). -/
def cleanupIter (times : List Nat) (s : ManagerState) : ManagerState :=
  times.foldl cleanupStale s

/-! ## The dispatch loop around one query (`main.py:166-197`)

    One iteration of `websocket_endpoint`'s message loop after a query
    decodes: check `is_processing`; mark processing; run
    `process_user_query` (which never touches the processing set); on
    an exception, send an error frame (whose own failure disconnects
    the session and, after the `finally`, breaks the loop into the
    endpoint's closing `disconnect`); in `finally`, clear the flag. -/

/-- How `process_user_query` ends: a normal return or a raised
    exception (already classified by `process_query`). -/
inductive QueryEnd where
  | ok
  | fails (e : RawException)
deriving Repr

/-- One dispatch iteration for a decoded query.  Returns the final
    manager state and the `is_processing` trace for the session:
    before the iteration, while `process_user_query` runs, and after
    the `finally` clause (and error-path cleanup) completes. -/
def dispatchOneQuery (s : ManagerState) (sid : Nat) (qe : QueryEnd)
    (errSendOk : Bool) (now : Nat) : ManagerState × (Bool × Bool × Bool) :=
  if isProcessing s sid then
    (s, (true, true, true))
  else
    let s1 := setProcessing s sid true
    let during := isProcessing s1 sid
    let s2 :=
      match qe with
      | .ok => s1
      | .fails _ => (sendTo s1 sid errSendOk now).2
    let s3 := setProcessing s2 sid false
    let s4 :=
      match qe with
      | .ok => s3
      | .fails _ => if errSendOk then s3 else disconnect s3 sid
    (s4, (isProcessing s sid, during, isProcessing s4 sid))

/-! ## Helper lemmas -/

lemma length_dropWhile_le_self (p : Char → Bool) (l : List Char) :
    (l.dropWhile p).length ≤ l.length := by
  induction l with
  | nil => simp [List.dropWhile]
  | cons a as ih =>
    simp only [List.dropWhile]
    split
    · exact Nat.le_succ_of_le ih
    · simp

lemma pyStrip_length_le (q : List Char) : (pyStrip q).length ≤ q.length := by
  unfold pyStrip
  calc ((q.dropWhile pyIsSpace).reverse.dropWhile pyIsSpace).reverse.length
      = ((q.dropWhile pyIsSpace).reverse.dropWhile pyIsSpace).length := by
        simp
    _ ≤ (q.dropWhile pyIsSpace).reverse.length :=
        length_dropWhile_le_self pyIsSpace _
    _ = (q.dropWhile pyIsSpace).length := by simp
    _ ≤ q.length := length_dropWhile_le_self pyIsSpace q

lemma validateQuery_error_cases (q : List Char)
    (h : (pyStrip q).length < 3 ∨ 1000 < (pyStrip q).length ∨
         containsForbidden q = true) :
    ∃ m, validateQuery q = .error m := by
  unfold validateQuery
  split
  · exact ⟨_, rfl⟩
  · rename_i h1
    split
    · exact ⟨_, rfl⟩
    · rename_i h2
      split
      · exact ⟨_, rfl⟩
      · rename_i h3
        exfalso
        simp only [Bool.or_eq_true, decide_eq_true_eq, not_or] at h1
        rcases h with hs | hl | hf
        · exact h1.2 hs
        · exact h2 (lt_of_lt_of_le hl (pyStrip_length_le q))
        · exact h3 hf

/-- C2: a query whose stripped text is shorter than 3 characters or
    longer than 1000 characters, or which contains a denylisted
    substring, makes `process_query` fail with a `ValidationError`
    without creating or invoking the engine and without changing the
    search counters. -/
theorem processQuery_validation_gate (q : List Char) (createOk : Bool)
    (exec : ExecOutcome) (stats statsRun : SearchStats)
    (h : (pyStrip q).length < 3 ∨ 1000 < (pyStrip q).length ∨
         containsForbidden q = true) :
    ∃ m, processQuery q createOk exec stats statsRun =
      ⟨.error (.validation m), false, false, stats⟩ := by
  obtain ⟨m, hm⟩ := validateQuery_error_cases q h
  exact ⟨m, by simp [processQuery, hm, classifyError]⟩

/-- Witness for C2 at the concrete too-short query "hi". -/
theorem processQuery_validation_gate_witness :
    ∃ m, processQuery "hi".data true .timesOut searchStatsInit searchStatsInit =
      ⟨.error (.validation m), false, false, searchStatsInit⟩ :=
  processQuery_validation_gate "hi".data true .timesOut searchStatsInit
    searchStatsInit (by decide)

/-- C10: the content screen is a case-insensitive substring test — any
    query whose lowercased text contains a denylisted term anywhere
    (also inside a longer benign word) is rejected with a
    `ValidationError` and the engine is never invoked. -/
theorem processQuery_denylist_is_substring_test (q : List Char)
    (createOk : Bool) (exec : ExecOutcome) (stats statsRun : SearchStats)
    (h : containsForbidden q = true) :
    ∃ m, processQuery q createOk exec stats statsRun =
      ⟨.error (.validation m), false, false, stats⟩ := by
  obtain ⟨m, hm⟩ := validateQuery_error_cases q (Or.inr (Or.inr h))
  exact ⟨m, by simp [processQuery, hm, classifyError]⟩

/-- Witness for C10 at the benign-word query "My Hackintosh build":
    "Hack" occurs only inside "Hackintosh" and only in mixed case, yet
    the query is rejected. -/
theorem processQuery_denylist_is_substring_test_witness :
    ∃ m, processQuery "My Hackintosh build".data true
        (.completes (.returns "ok")) searchStatsInit searchStatsInit =
      ⟨.error (.validation m), false, false, searchStatsInit⟩ :=
  processQuery_denylist_is_substring_test "My Hackintosh build".data true
    (.completes (.returns "ok")) searchStatsInit searchStatsInit (by decide)

/-- C7: engine output-parsing failures never propagate — they become a
    successful response carrying the fixed apology string; every other
    `invoke` exception surfaces as an `AgentError`; and every failure
    `process_query` lets cross back to the dispatch loop is one of
    `ValidationError`, `TimeoutError`, `AgentError`. -/
theorem errorClassification_total :
    (∀ m, executeAgent (.parserError m) = .ok fallbackOutput) ∧
    (∀ m, executeAgent (.raises m) =
        .error ("Agent execution failed: " ++ m)) ∧
    (∀ e, isClassifiedFailure (classifyError e) = true) ∧
    (∀ (q : List Char) (createOk : Bool) (exec : ExecOutcome)
        (stats statsRun : SearchStats) (e : RawException),
        (processQuery q createOk exec stats statsRun).result = .error e →
        isClassifiedFailure e = true) := by
  refine ⟨fun _ => rfl, fun _ => rfl, fun e => by cases e <;> rfl, ?_⟩
  intro q createOk exec stats statsRun e h
  cases hv : validateQuery q with
  | error m =>
    simp [processQuery, hv, classifyError] at h
    simp [← h, isClassifiedFailure]
  | ok u =>
    cases createOk with
    | false =>
      simp [processQuery, hv, classifyError] at h
      simp [← h, isClassifiedFailure]
    | true =>
      cases exec with
      | timesOut =>
        simp [processQuery, hv, classifyError] at h
        simp [← h, isClassifiedFailure]
      | completes inv =>
        cases inv with
        | returns out => simp [processQuery, hv, executeAgent] at h
        | parserError m => simp [processQuery, hv, executeAgent] at h
        | raises m =>
          simp [processQuery, hv, executeAgent, classifyError] at h
          simp [← h, isClassifiedFailure]

/-- Witness for C7: the concrete classified failure produced by the
    too-short query "hi". -/
theorem errorClassification_total_witness :
    isClassifiedFailure
      (RawException.validation "Query must be at least 3 characters long") =
      true :=
  errorClassification_total.2.2.2 "hi".data true .timesOut searchStatsInit
    searchStatsInit (.validation "Query must be at least 3 characters long")
    (by rfl)

/-- C3: for a sequence of N engine lifecycle events in one execution,
    the callback handler produces exactly N outbound messages, one per
    event in the same relative order, each of the kind fixed by the
    event-to-message mapping, and when the execution ends with
    engine-finish the final-answer message is the last one sent. -/
theorem emitter_event_message_mapping :
    (∀ events : List EngineEvent, (emitAll events).length = events.length) ∧
    (∀ (events : List EngineEvent) (i : Nat),
        (emitAll events)[i]? = (events[i]?).map handleEvent) ∧
    (∀ e, (handleEvent e).type = specEventKind e) ∧
    (∀ (events : List EngineEvent) (out : String),
        events.getLast? = some (.engineFinish out) →
        (emitAll events).getLast? = some ⟨.finalOutput, out⟩) := by
  refine ⟨fun events => by simp [emitAll], ?_, fun e => by cases e <;> rfl, ?_⟩
  · intro events i
    simp [emitAll]
  · intro events out h
    rw [emitAll, List.getLast?_map, h]
    rfl

/-- Witness for C3: the spec's §8 scenario — a mocked engine emitting
    [start, tool-start, tool-end, finish] yields 4 ordered messages
    ending in a final-answer. -/
theorem emitter_event_message_mapping_witness :
    (emitAll [.engineStart, .toolStart "$800 gaming build", .toolEnd,
        .engineFinish "Here is a build."]).getLast? =
      some ⟨.finalOutput, "Here is a build."⟩ :=
  emitter_event_message_mapping.2.2.2
    [.engineStart, .toolStart "$800 gaming build", .toolEnd,
     .engineFinish "Here is a build."] "Here is a build." (by rfl)

/-- C5 counterexample: a search failing every time with a transient
    `SearchError` is attempted exactly 3 times, but the two
    inter-attempt delays are both 4 seconds — `wait_exponential(
    multiplier=1, min=4, max=10)` clamps the first delays
    (1s, 2s) up to the 4-second floor — so the delays are NOT strictly
    increasing. -/
theorem retry_backoff_not_strictly_increasing :
    searchAsyncRetry (fun _ => .searchErr "boom") =
      ⟨3, [4, 4], .searchErr "boom"⟩ ∧
    searchWait 1 = 4 ∧ searchWait 2 = 4 ∧
    ¬ strictlyIncreasing
        (searchAsyncRetry (fun _ => .searchErr "boom")).waits := by
  refine ⟨by rfl, by rfl, by rfl, ?_⟩
  rw [show (searchAsyncRetry (fun _ => .searchErr "boom")).waits = [4, 4]
      from rfl]
  decide

/-- C5 (amended): a search failing every time with a transient error
    (`SearchError` or `RateLimitError`) is attempted exactly 3 times
    with non-decreasing (here equal) inter-attempt delays before the
    failure is surfaced; a search failing with a non-transient error
    (in particular `TimeoutError`) is attempted exactly once. -/
theorem retry_attempt_counts :
    (∀ outcomes : Nat → SearchOutcome,
        (∀ n, isTransient (outcomes n) = true) →
        searchAsyncRetry outcomes =
          ⟨3, [searchWait 1, searchWait 2], outcomes 3⟩ ∧
        nonDecreasing [searchWait 1, searchWait 2]) ∧
    (∀ outcomes : Nat → SearchOutcome,
        isTransient (outcomes 1) = false →
        searchAsyncRetry outcomes = ⟨1, [], outcomes 1⟩) := by
  constructor
  · intro outcomes h
    refine ⟨?_, by decide⟩
    simp [searchAsyncRetry, retryAux, h 1, h 2, h 3]
  · intro outcomes h
    simp [searchAsyncRetry, retryAux, h]

/-- Witness for C5's amended claim: an always-rate-limited search runs
    3 attempts with delays [4, 4]; a timed-out search runs exactly 1. -/
theorem retry_attempt_counts_witness :
    (searchAsyncRetry (fun _ => .rateLimitErr "429") =
        ⟨3, [searchWait 1, searchWait 2], .rateLimitErr "429"⟩ ∧
      nonDecreasing [searchWait 1, searchWait 2]) ∧
    searchAsyncRetry (fun _ => .timeoutErr "Search timed out") =
      ⟨1, [], .timeoutErr "Search timed out"⟩ :=
  ⟨retry_attempt_counts.1 (fun _ => .rateLimitErr "429") (fun _ => rfl),
   retry_attempt_counts.2 (fun _ => .timeoutErr "Search timed out") rfl⟩

/-- C9: per completed attempt of `search_async`, `total_searches` goes
    up by one and exactly one of `successful_searches` /
    `failed_searches` goes up by one; hence after any run of attempts
    from the initial counters, `total = successful + failed`, all
    counters are monotone non-decreasing, and `get_stats` reports
    exactly the internal counters (as a copy, so the tool's own state
    is a pure value the caller cannot alter). -/
theorem searchStats_invariant :
    (∀ (s : SearchStats) (os : List SearchOutcome),
        (runStats os s).total = s.total + os.length ∧
        (runStats os s).successful + (runStats os s).failed =
          s.successful + s.failed + os.length ∧
        s.total ≤ (runStats os s).total ∧
        s.successful ≤ (runStats os s).successful ∧
        s.failed ≤ (runStats os s).failed) ∧
    (∀ (o : SearchOutcome) (s : SearchStats),
        (attemptStats o s).total = s.total + 1 ∧
        (((attemptStats o s).successful = s.successful + 1 ∧
            (attemptStats o s).failed = s.failed) ∨
          ((attemptStats o s).successful = s.successful ∧
            (attemptStats o s).failed = s.failed + 1))) ∧
    (∀ os : List SearchOutcome,
        (runStats os searchStatsInit).total =
          (runStats os searchStatsInit).successful +
            (runStats os searchStatsInit).failed) ∧
    (∀ s : SearchStats, getStats s = s) := by
  have hstep : ∀ (o : SearchOutcome) (s : SearchStats),
      (attemptStats o s).total = s.total + 1 ∧
      (((attemptStats o s).successful = s.successful + 1 ∧
          (attemptStats o s).failed = s.failed) ∨
        ((attemptStats o s).successful = s.successful ∧
          (attemptStats o s).failed = s.failed + 1)) := by
    intro o s
    cases o <;> simp [attemptStats]
  have hrun : ∀ (os : List SearchOutcome) (s : SearchStats),
      (runStats os s).total = s.total + os.length ∧
      (runStats os s).successful + (runStats os s).failed =
        s.successful + s.failed + os.length ∧
      s.total ≤ (runStats os s).total ∧
      s.successful ≤ (runStats os s).successful ∧
      s.failed ≤ (runStats os s).failed := by
    intro os
    induction os with
    | nil => intro s; simp [runStats]
    | cons o rest ih =>
      intro s
      have hs := hstep o s
      have hr := ih (attemptStats o s)
      have hfold : runStats (o :: rest) s = runStats rest (attemptStats o s) := rfl
      rw [hfold]
      refine ⟨?_, ?_, ?_, ?_, ?_⟩
      · have hd : (o :: rest).length = rest.length + 1 := rfl
        rw [hr.1, hs.1]; omega
      · rcases hs.2 with ⟨h1, h2⟩ | ⟨h1, h2⟩ <;>
          · have hq := hr.2.1
            have hd : (o :: rest).length = rest.length + 1 := rfl
            omega
      · calc s.total ≤ (attemptStats o s).total := by rw [hs.1]; omega
          _ ≤ (runStats rest (attemptStats o s)).total := hr.2.2.1
      · calc s.successful ≤ (attemptStats o s).successful := by
              rcases hs.2 with ⟨h1, _⟩ | ⟨h1, _⟩ <;> omega
          _ ≤ (runStats rest (attemptStats o s)).successful := hr.2.2.2.1
      · calc s.failed ≤ (attemptStats o s).failed := by
              rcases hs.2 with ⟨_, h2⟩ | ⟨_, h2⟩ <;> omega
          _ ≤ (runStats rest (attemptStats o s)).failed := hr.2.2.2.2
  refine ⟨fun s os => hrun os s, hstep, ?_, fun s => rfl⟩
  intro os
  have h := hrun os searchStatsInit
  have h0 : searchStatsInit.total = 0 ∧ searchStatsInit.successful = 0 ∧
      searchStatsInit.failed = 0 := ⟨rfl, rfl, rfl⟩
  omega

/-! ## Connection-manager lemmas -/

lemma not_mem_filter_ne_self (l : List Nat) (a : Nat) :
    a ∉ l.filter (· ≠ a) := by
  simp [List.mem_filter]

lemma isProcessing_setProcessing_true (s : ManagerState) (sid : Nat) :
    isProcessing (setProcessing s sid true) sid = true := by
  by_cases hm : sid ∈ s.processingConnections
  · simp [isProcessing, setProcessing, hm]
  · simp [isProcessing, setProcessing, hm]

lemma isProcessing_setProcessing_false (s : ManagerState) (sid : Nat) :
    isProcessing (setProcessing s sid false) sid = false := by
  simp [isProcessing, setProcessing, List.mem_filter]

lemma disconnect_eq_self (s : ManagerState) (sid : Nat)
    (h : sid ∉ s.activeConnections) : disconnect s sid = s := by
  unfold disconnect
  rw [if_neg h]

lemma disconnect_of_mem (s : ManagerState) (sid : Nat)
    (h : sid ∈ s.activeConnections) :
    disconnect s sid =
      { disconnectCore s sid with
        heartbeatTask :=
          if (disconnectCore s sid).activeConnections.length = 0 then false
          else s.heartbeatTask } := by
  unfold disconnect
  rw [if_pos h]
  by_cases h0 : (disconnectCore s sid).activeConnections.length = 0
  · rw [if_pos h0]
    by_cases hb : (disconnectCore s sid).heartbeatTask = true
    · rw [if_pos ⟨h0, hb⟩]
    · rw [if_neg (fun hc => hb hc.2)]
      have hbf : s.heartbeatTask = false := by
        simpa [disconnectCore] using hb
      rw [← hbf]
      rfl
  · rw [if_neg h0, if_neg (fun hc => h0 hc.1)]
    rfl

lemma isProcessing_disconnect_mono (s : ManagerState) (x sid : Nat)
    (h : isProcessing s sid = false) :
    isProcessing (disconnect s x) sid = false := by
  by_cases hx : x ∈ s.activeConnections
  · rw [disconnect_of_mem s x hx]
    simp only [isProcessing, decide_eq_false_iff_not] at h ⊢
    exact fun hm => h (List.mem_of_mem_filter hm)
  · rw [disconnect_eq_self s x hx]
    exact h

lemma disconnect_not_mem (s : ManagerState) (sid : Nat) :
    sid ∉ (disconnect s sid).activeConnections := by
  by_cases hm : sid ∈ s.activeConnections
  · rw [disconnect_of_mem s sid hm]
    exact not_mem_filter_ne_self _ _
  · rw [disconnect_eq_self s sid hm]
    exact hm

/-- C1: with the session not marked as executing beforehand, one
    dispatch iteration shows `is_processing` true exactly while
    `process_user_query` runs and false again after the `finally`
    clause, on every exit path — normal return, classified error
    (including timeout), and even a failing error-send that tears the
    connection down. -/
theorem processing_flag_no_leak (s : ManagerState) (sid : Nat)
    (qe : QueryEnd) (errSendOk : Bool) (now : Nat)
    (h : isProcessing s sid = false) :
    (dispatchOneQuery s sid qe errSendOk now).2 = (false, true, false) := by
  have hfin : ∀ s2 : ManagerState,
      isProcessing (disconnect (setProcessing s2 sid false) sid) sid = false :=
    fun s2 =>
      isProcessing_disconnect_mono _ sid sid (isProcessing_setProcessing_false s2 sid)
  cases qe with
  | ok =>
    simp [dispatchOneQuery, h, isProcessing_setProcessing_true,
      isProcessing_setProcessing_false]
  | fails e =>
    cases errSendOk with
    | true =>
      simp [dispatchOneQuery, h, isProcessing_setProcessing_true,
        isProcessing_setProcessing_false]
    | false =>
      simp [dispatchOneQuery, h, isProcessing_setProcessing_true, hfin]

/-- Witness for C1: a live session whose query times out and whose
    error frame also fails to send still ends not-processing. -/
theorem processing_flag_no_leak_witness :
    (dispatchOneQuery ⟨[5], [(5, ⟨0, 0, 0⟩)], [], true, 6⟩ 5
        (.fails (.timeout "Agent processing timed out after 5 minutes"))
        false 7).2 = (false, true, false) :=
  processing_flag_no_leak ⟨[5], [(5, ⟨0, 0, 0⟩)], [], true, 6⟩ 5
    (.fails (.timeout "Agent processing timed out after 5 minutes"))
    false 7 (by decide)

/-- C8: `disconnect` is idempotent, and an effective call removes the
    session from the connection and info maps, clears any in-flight
    execution flag, and cancels the heartbeat loop exactly when the
    live count reaches zero (given the loop was running). -/
theorem disconnect_idempotent :
    (∀ (s : ManagerState) (sid : Nat),
        disconnect (disconnect s sid) sid = disconnect s sid) ∧
    (∀ (s : ManagerState) (sid : Nat), sid ∈ s.activeConnections →
        sid ∉ (disconnect s sid).activeConnections ∧
        lookupInfo (disconnect s sid) sid = none ∧
        isProcessing (disconnect s sid) sid = false ∧
        (s.heartbeatTask = true →
          ((disconnect s sid).heartbeatTask = false ↔
            (disconnect s sid).activeConnections.length = 0))) := by
  constructor
  · intro s sid
    exact disconnect_eq_self _ sid (disconnect_not_mem s sid)
  · intro s sid hmem
    have hfind : ∀ l : List (Nat × ConnInfo),
        (l.filter (fun p => p.1 ≠ sid)).find? (fun p => p.1 = sid) = none := by
      intro l
      rw [List.find?_eq_none]
      intro p hp
      have := (List.mem_filter.mp hp).2
      simpa using this
    refine ⟨disconnect_not_mem s sid, ?_, ?_, ?_⟩
    · rw [disconnect_of_mem s sid hmem]
      unfold lookupInfo
      simp only [disconnectCore]
      rw [hfind]
      rfl
    · rw [disconnect_of_mem s sid hmem]
      simp [disconnectCore, isProcessing, List.mem_filter]
    · intro hhb
      rw [disconnect_of_mem s sid hmem]
      show (if (disconnectCore s sid).activeConnections.length = 0 then false
            else s.heartbeatTask) = false ↔
          (disconnectCore s sid).activeConnections.length = 0
      by_cases h0 : (disconnectCore s sid).activeConnections.length = 0
      · rw [if_pos h0]
        exact ⟨fun _ => h0, fun _ => rfl⟩
      · rw [if_neg h0, hhb]
        exact ⟨fun hf => absurd hf (by simp), fun hl => absurd hl h0⟩

/-- Witness for C8: an effective disconnect of the only session of a
    concrete registry. -/
theorem disconnect_idempotent_witness :
    5 ∉ (disconnect ⟨[5], [(5, ⟨0, 0, 0⟩)], [5], true, 6⟩ 5).activeConnections ∧
    lookupInfo (disconnect ⟨[5], [(5, ⟨0, 0, 0⟩)], [5], true, 6⟩ 5) 5 = none ∧
    isProcessing (disconnect ⟨[5], [(5, ⟨0, 0, 0⟩)], [5], true, 6⟩ 5) 5 = false ∧
    ((⟨[5], [(5, ⟨0, 0, 0⟩)], [5], true, 6⟩ : ManagerState).heartbeatTask = true →
      ((disconnect ⟨[5], [(5, ⟨0, 0, 0⟩)], [5], true, 6⟩ 5).heartbeatTask = false ↔
        (disconnect ⟨[5], [(5, ⟨0, 0, 0⟩)], [5], true, 6⟩ 5).activeConnections.length = 0)) :=
  disconnect_idempotent.2 ⟨[5], [(5, ⟨0, 0, 0⟩)], [5], true, 6⟩ 5 (by decide)

/-! ## Connection admission (C4) -/

/-- Every id held anywhere in the registry is below the fresh-id
    supply — the uuid4 freshness invariant of the model.  It holds of
    the empty initial registry and is preserved by every operation. -/
def idsFresh (s : ManagerState) : Prop :=
  (∀ sid ∈ s.activeConnections, sid < s.nextId) ∧
  (∀ p ∈ s.connectionInfo, p.1 < s.nextId)

lemma touchEntry_fst (sid now : Nat) (p : Nat × ConnInfo) :
    (touchEntry sid now p).1 = p.1 := by
  unfold touchEntry
  split <;> rfl

lemma find_append_fresh (l : List (Nat × ConnInfo)) (sid : Nat) (i : ConnInfo)
    (h : ∀ p ∈ l, p.1 ≠ sid) :
    (l ++ [(sid, i)]).find? (fun p => p.1 = sid) = some (sid, i) := by
  induction l with
  | nil => simp
  | cons p rest ih =>
    have hp : p.1 ≠ sid := h p (by simp)
    have hskip : ((p :: rest) ++ [(sid, i)]).find? (fun q => q.1 = sid) =
        (rest ++ [(sid, i)]).find? (fun q => q.1 = sid) := by
      rw [List.cons_append, List.find?_cons_of_neg]
      simpa using hp
    rw [hskip]
    exact ih (fun q hq => h q (by simp [hq]))

lemma lookupInfo_connect_self (s : ManagerState) (now : Nat)
    (hlt : s.activeConnections.length < MAX_CONNECTIONS)
    (hfresh : idsFresh s) :
    lookupInfo (connect s true now).2 s.nextId = some ⟨now, now, 1⟩ := by
  have hnot : ¬ MAX_CONNECTIONS ≤ s.activeConnections.length := not_le.mpr hlt
  unfold connect
  rw [if_neg hnot]
  show Option.map (fun p : Nat × ConnInfo => p.2)
      (List.find? (fun p : Nat × ConnInfo => p.1 = s.nextId)
        (List.map (touchEntry s.nextId now)
          (s.connectionInfo ++ [(s.nextId, ⟨now, now, 0⟩)]))) =
    some ⟨now, now, 1⟩
  rw [List.map_append]
  have hlast : List.map (touchEntry s.nextId now)
      [(s.nextId, (⟨now, now, 0⟩ : ConnInfo))] =
      [(s.nextId, (⟨now, now, 1⟩ : ConnInfo))] := by
    simp [touchEntry]
  rw [hlast, find_append_fresh]
  · rfl
  · intro p hp
    obtain ⟨q, hq, rfl⟩ := List.mem_map.mp hp
    rw [touchEntry_fst]
    exact Nat.ne_of_lt (hfresh.2 q hq)

/-- C4: with live sessions at capacity, `connect` refuses the new
    transport with close code 1013 and leaves the whole registry state
    (live count, session map, info map) unchanged; below capacity it
    admits exactly one new session under a fresh unique id, growing the
    live count by one and registering its metadata. -/
theorem connect_admission_control :
    (∀ (s : ManagerState) (welcomeOk : Bool) (now : Nat),
        MAX_CONNECTIONS ≤ s.activeConnections.length →
        connect s welcomeOk now = (.refused 1013 "Server at capacity", s)) ∧
    (∀ (s : ManagerState) (now : Nat),
        s.activeConnections.length < MAX_CONNECTIONS → idsFresh s →
        (connect s true now).1 = .admitted s.nextId ∧
        s.nextId ∉ s.activeConnections ∧
        (connect s true now).2.activeConnections =
          s.activeConnections ++ [s.nextId] ∧
        (connect s true now).2.activeConnections.length =
          s.activeConnections.length + 1 ∧
        lookupInfo (connect s true now).2 s.nextId = some ⟨now, now, 1⟩ ∧
        (connect s true now).2.processingConnections =
          s.processingConnections) := by
  constructor
  · intro s w now hcap
    unfold connect
    rw [if_pos hcap]
  · intro s now hlt hfresh
    have hnot : ¬ MAX_CONNECTIONS ≤ s.activeConnections.length := not_le.mpr hlt
    have hne : s.nextId ∉ s.activeConnections := fun hm =>
      lt_irrefl _ (hfresh.1 _ hm)
    have hact : (connect s true now).2.activeConnections =
        s.activeConnections ++ [s.nextId] := by
      unfold connect
      rw [if_neg hnot]
      rfl
    refine ⟨?_, hne, hact, ?_, lookupInfo_connect_self s now hlt hfresh, ?_⟩
    · unfold connect
      rw [if_neg hnot]
      rfl
    · rw [hact]
      simp
    · unfold connect
      rw [if_neg hnot]
      rfl

/-- Witness for C4: a registry of 100 live sessions refuses the next
    connect unchanged, and the empty registry admits session 0. -/
theorem connect_admission_control_witness :
    connect ⟨List.range 100, [], [], true, 100⟩ true 50 =
      (.refused 1013 "Server at capacity", ⟨List.range 100, [], [], true, 100⟩) ∧
    (connect ⟨[], [], [], false, 0⟩ true 9).1 = .admitted 0 ∧
    (connect ⟨[], [], [], false, 0⟩ true 9).2.activeConnections = [0] ∧
    lookupInfo (connect ⟨[], [], [], false, 0⟩ true 9).2 0 = some ⟨9, 9, 1⟩ := by
  have h1 := connect_admission_control.1 ⟨List.range 100, [], [], true, 100⟩
    true 50 (by simp [MAX_CONNECTIONS])
  have h2 := connect_admission_control.2 ⟨[], [], [], false, 0⟩ 9
    (by simp [MAX_CONNECTIONS]) (by constructor <;> simp)
  exact ⟨h1, h2.1, h2.2.2.1, h2.2.2.2.2.1⟩

/-! ## Stale-connection cleanup (C6) -/

/-- The metadata dict has no duplicate keys — true of the Python dict
    by construction. -/
def infoKeysNodup (s : ManagerState) : Prop :=
  (s.connectionInfo.map Prod.fst).Nodup

lemma mem_active_disconnect (s : ManagerState) (x sid : Nat) :
    sid ∈ (disconnect s x).activeConnections ↔
      sid ∈ s.activeConnections ∧ (x ∈ s.activeConnections → sid ≠ x) := by
  by_cases hx : x ∈ s.activeConnections
  · rw [disconnect_of_mem s x hx]
    show sid ∈ (disconnectCore s x).activeConnections ↔ _
    simp [disconnectCore, List.mem_filter, hx]
  · rw [disconnect_eq_self s x hx]
    simp [hx]

lemma mem_active_foldl_disconnect (l : List Nat) :
    ∀ (s : ManagerState) (sid : Nat),
      sid ∈ (l.foldl disconnect s).activeConnections ↔
        sid ∈ s.activeConnections ∧ sid ∉ l := by
  induction l with
  | nil => intro s sid; simp
  | cons x xs ih =>
    intro s sid
    rw [List.foldl_cons, ih, mem_active_disconnect]
    by_cases hx : x = sid
    · subst hx
      simp
    · simp [hx, Ne.symm hx]

lemma mem_staleIds (s : ManagerState) (now sid : Nat) :
    sid ∈ staleIds s now ↔
      ∃ i : ConnInfo, (sid, i) ∈ s.connectionInfo ∧
        CONNECTION_TIMEOUT < now - i.lastActivity := by
  unfold staleIds
  constructor
  · intro h
    obtain ⟨p, hp, hfst⟩ := List.mem_map.mp h
    obtain ⟨hmem, hcond⟩ := List.mem_filter.mp hp
    refine ⟨p.2, ?_, by simpa using hcond⟩
    rw [← hfst]
    simpa using hmem
  · intro ⟨i, hmem, hcond⟩
    refine List.mem_map.mpr ⟨(sid, i), List.mem_filter.mpr ⟨hmem, ?_⟩, rfl⟩
    simpa using hcond

lemma assoc_mem_iff_find (sid : Nat) (i : ConnInfo) :
    ∀ l : List (Nat × ConnInfo), (l.map Prod.fst).Nodup →
      ((sid, i) ∈ l ↔ (l.find? (fun p => p.1 = sid)).map (·.2) = some i) := by
  intro l
  induction l with
  | nil => simp
  | cons p rest ih =>
    intro hnd
    simp only [List.map_cons, List.nodup_cons] at hnd
    by_cases hps : p.1 = sid
    · rw [List.find?_cons_of_pos _ (by simpa using hps)]
      constructor
      · intro hm
        rcases List.mem_cons.mp hm with heq | hrest
        · rw [← heq]
          rfl
        · exact absurd (hps ▸ List.mem_map.mpr ⟨(sid, i), hrest, rfl⟩) hnd.1
      · intro hsome
        have hp2 : p.2 = i := by simpa using hsome
        have hpeq : p = (sid, i) := by
          obtain ⟨p1, p2⟩ := p
          simp only at hps hp2
          rw [hps, hp2]
        exact hpeq ▸ List.mem_cons_self p rest
    · rw [List.find?_cons_of_neg _ (by simpa using hps)]
      rw [← ih hnd.2]
      constructor
      · intro hm
        rcases List.mem_cons.mp hm with heq | hrest
        · exact absurd (by rw [← heq]) hps
        · exact hrest
      · intro hrest
        exact List.mem_cons_of_mem p hrest

lemma lookupInfo_eq_find (s : ManagerState) (sid : Nat) :
    lookupInfo s sid = (s.connectionInfo.find? (fun p => p.1 = sid)).map (·.2) :=
  rfl

lemma mem_info_iff_lookup (s : ManagerState) (sid : Nat) (i : ConnInfo)
    (h : infoKeysNodup s) :
    (sid, i) ∈ s.connectionInfo ↔ lookupInfo s sid = some i := by
  rw [lookupInfo_eq_find]
  exact assoc_mem_iff_find sid i s.connectionInfo h

lemma infoKeysNodup_disconnect (s : ManagerState) (x : Nat)
    (h : infoKeysNodup s) : infoKeysNodup (disconnect s x) := by
  by_cases hx : x ∈ s.activeConnections
  · rw [disconnect_of_mem s x hx]
    show ((s.connectionInfo.filter (fun p => p.1 ≠ x)).map Prod.fst).Nodup
    exact List.Nodup.sublist ((List.filter_sublist _).map Prod.fst) h
  · rwa [disconnect_eq_self s x hx]

lemma infoKeysNodup_foldl (l : List Nat) :
    ∀ s : ManagerState, infoKeysNodup s → infoKeysNodup (l.foldl disconnect s) := by
  induction l with
  | nil => intro s h; exact h
  | cons x xs ih => intro s h; exact ih _ (infoKeysNodup_disconnect s x h)

lemma find_filter_keyne (x sid : Nat) (hx : x ≠ sid) :
    ∀ l : List (Nat × ConnInfo),
      (l.filter (fun p => p.1 ≠ x)).find? (fun p => p.1 = sid) =
        l.find? (fun p => p.1 = sid) := by
  intro l
  induction l with
  | nil => rfl
  | cons q rest ih =>
    by_cases hq : q.1 = x
    · rw [List.filter_cons_of_neg (by simpa using hq),
        List.find?_cons_of_neg _ (by simp [hq, hx]), ih]
    · rw [List.filter_cons_of_pos (by simpa using hq)]
      by_cases hqs : q.1 = sid
      · rw [List.find?_cons_of_pos _ (by simpa using hqs),
          List.find?_cons_of_pos _ (by simpa using hqs)]
      · rw [List.find?_cons_of_neg _ (by simpa using hqs),
          List.find?_cons_of_neg _ (by simpa using hqs), ih]

lemma lookupInfo_disconnect_ne (s : ManagerState) (x sid : Nat)
    (hx : x ≠ sid) :
    lookupInfo (disconnect s x) sid = lookupInfo s sid := by
  by_cases hm : x ∈ s.activeConnections
  · rw [disconnect_of_mem s x hm]
    show ((s.connectionInfo.filter (fun p => p.1 ≠ x)).find?
        (fun p => p.1 = sid)).map (·.2) = _
    rw [find_filter_keyne x sid hx]
    rfl
  · rw [disconnect_eq_self s x hm]

lemma lookupInfo_foldl_disconnect (l : List Nat) :
    ∀ (s : ManagerState) (sid : Nat), sid ∉ l →
      lookupInfo (l.foldl disconnect s) sid = lookupInfo s sid := by
  induction l with
  | nil => intro s sid _; rfl
  | cons x xs ih =>
    intro s sid h
    have hxs : x ≠ sid := by
      rintro rfl
      exact h (List.mem_cons_self x xs)
    rw [List.foldl_cons, ih _ _ (fun hm => h (List.mem_cons_of_mem x hm)),
      lookupInfo_disconnect_ne s x sid hxs]

lemma mem_active_cleanupStale_raw (s : ManagerState) (now sid : Nat) :
    sid ∈ (cleanupStale s now).activeConnections ↔
      sid ∈ s.activeConnections ∧ sid ∉ staleIds s now := by
  unfold cleanupStale
  exact mem_active_foldl_disconnect _ _ _

lemma not_mem_cleanupStale_mono (s : ManagerState) (t sid : Nat)
    (h : sid ∉ s.activeConnections) :
    sid ∉ (cleanupStale s t).activeConnections :=
  fun hm => h ((mem_active_cleanupStale_raw s t sid).mp hm).1

lemma not_mem_cleanupIter_mono (times : List Nat) :
    ∀ (s : ManagerState) (sid : Nat), sid ∉ s.activeConnections →
      sid ∉ (cleanupIter times s).activeConnections := by
  induction times with
  | nil => intro s sid h; exact h
  | cons t ts ih =>
    intro s sid h
    exact ih _ _ (not_mem_cleanupStale_mono s t sid h)

lemma staleIds_iff_lookup (s : ManagerState) (now sid : Nat)
    (info : ConnInfo) (hnd : infoKeysNodup s)
    (hlk : lookupInfo s sid = some info) :
    sid ∈ staleIds s now ↔ CONNECTION_TIMEOUT < now - info.lastActivity := by
  rw [mem_staleIds]
  constructor
  · rintro ⟨i, hmem, hc⟩
    have h1 := (mem_info_iff_lookup s sid i hnd).mp hmem
    rw [hlk] at h1
    have h2 : info = i := Option.some.inj h1
    rw [h2]
    exact hc
  · intro hc
    exact ⟨info, (mem_info_iff_lookup s sid info hnd).mpr hlk, hc⟩

lemma mem_active_cleanupStale (s : ManagerState) (now sid : Nat)
    (info : ConnInfo) (hnd : infoKeysNodup s)
    (hlk : lookupInfo s sid = some info) :
    sid ∈ (cleanupStale s now).activeConnections ↔
      sid ∈ s.activeConnections ∧
        now - info.lastActivity ≤ CONNECTION_TIMEOUT := by
  rw [mem_active_cleanupStale_raw, staleIds_iff_lookup s now sid info hnd hlk,
    Nat.not_lt]

lemma lookupInfo_cleanupStale (s : ManagerState) (t sid : Nat)
    (h : sid ∉ staleIds s t) :
    lookupInfo (cleanupStale s t) sid = lookupInfo s sid := by
  unfold cleanupStale
  exact lookupInfo_foldl_disconnect _ _ _ h

lemma infoKeysNodup_cleanupStale (s : ManagerState) (t : Nat)
    (h : infoKeysNodup s) : infoKeysNodup (cleanupStale s t) := by
  unfold cleanupStale
  exact infoKeysNodup_foldl _ _ h

/-- C6: the stale-connection cleanup disconnects a session at a scan
    exactly when its idle time (scan time minus last activity) strictly
    exceeds the staleness window; over repeated cleanup scans with no
    activity (the last-activity timestamp frozen), a session inside the
    window at every scan is never disconnected by the cleanup, and a
    session whose idle time exceeds the window at some scan is gone
    afterwards. -/
theorem stale_cleanup_window :
    (∀ (s : ManagerState) (now sid : Nat) (info : ConnInfo),
        infoKeysNodup s → lookupInfo s sid = some info →
        (sid ∈ (cleanupStale s now).activeConnections ↔
          sid ∈ s.activeConnections ∧
            now - info.lastActivity ≤ CONNECTION_TIMEOUT)) ∧
    (∀ (times : List Nat) (s : ManagerState) (sid : Nat) (info : ConnInfo),
        infoKeysNodup s → lookupInfo s sid = some info →
        sid ∈ s.activeConnections →
        (∀ t ∈ times, t - info.lastActivity ≤ CONNECTION_TIMEOUT) →
        sid ∈ (cleanupIter times s).activeConnections) ∧
    (∀ (times : List Nat) (s : ManagerState) (sid : Nat) (info : ConnInfo),
        infoKeysNodup s → lookupInfo s sid = some info →
        (∃ t ∈ times, CONNECTION_TIMEOUT < t - info.lastActivity) →
        sid ∉ (cleanupIter times s).activeConnections) := by
  refine ⟨mem_active_cleanupStale, ?_, ?_⟩
  · intro times
    induction times with
    | nil =>
      intro s sid info _ _ hmem _
      exact hmem
    | cons t ts ih =>
      intro s sid info hnd hlk hmem hall
      have hle : t - info.lastActivity ≤ CONNECTION_TIMEOUT :=
        hall t (List.mem_cons_self t ts)
      have hin : sid ∈ (cleanupStale s t).activeConnections :=
        (mem_active_cleanupStale s t sid info hnd hlk).mpr ⟨hmem, hle⟩
      have hns : sid ∉ staleIds s t := by
        rw [staleIds_iff_lookup s t sid info hnd hlk]
        exact Nat.not_lt.mpr hle
      have hnd2 := infoKeysNodup_cleanupStale s t hnd
      have hlk2 : lookupInfo (cleanupStale s t) sid = some info := by
        rw [lookupInfo_cleanupStale s t sid hns, hlk]
      exact ih _ sid info hnd2 hlk2 hin
        (fun u hu => hall u (List.mem_cons_of_mem t hu))
  · intro times
    induction times with
    | nil =>
      rintro s sid info _ _ ⟨t, ht, _⟩
      simp at ht
    | cons t ts ih =>
      rintro s sid info hnd hlk ⟨u, hu, hc⟩
      show sid ∉ (cleanupIter ts (cleanupStale s t)).activeConnections
      by_cases hmem : sid ∈ s.activeConnections
      · rcases List.mem_cons.mp hu with rfl | hts
        · have hout : sid ∉ (cleanupStale s u).activeConnections := by
            rw [mem_active_cleanupStale s u sid info hnd hlk]
            rintro ⟨_, hle⟩
            exact absurd hc (Nat.not_lt.mpr hle)
          exact not_mem_cleanupIter_mono ts _ sid hout
        · by_cases hsur : sid ∈ (cleanupStale s t).activeConnections
          · have hns : sid ∉ staleIds s t :=
              ((mem_active_cleanupStale_raw s t sid).mp hsur).2
            have hnd2 := infoKeysNodup_cleanupStale s t hnd
            have hlk2 : lookupInfo (cleanupStale s t) sid = some info := by
              rw [lookupInfo_cleanupStale s t sid hns, hlk]
            exact ih _ sid info hnd2 hlk2 ⟨u, hts, hc⟩
          · exact not_mem_cleanupIter_mono ts _ sid hsur
      · exact not_mem_cleanupIter_mono ts _ sid
          (not_mem_cleanupStale_mono s t sid hmem)

/-- Witness for C6: the session with last activity at time 0 survives
    scans at times 100 and 200 (idle ≤ 300) and is disconnected once a
    scan happens at time 400 (idle 400 > 300). -/
theorem stale_cleanup_window_witness :
    (7 ∈ (cleanupStale ⟨[7], [(7, ⟨0, 0, 0⟩)], [], true, 8⟩ 400).activeConnections ↔
      7 ∈ ([7] : List Nat) ∧ 400 - 0 ≤ CONNECTION_TIMEOUT) ∧
    7 ∈ (cleanupIter [100, 200] ⟨[7], [(7, ⟨0, 0, 0⟩)], [], true, 8⟩).activeConnections ∧
    7 ∉ (cleanupIter [100, 400] ⟨[7], [(7, ⟨0, 0, 0⟩)], [], true, 8⟩).activeConnections :=
  ⟨stale_cleanup_window.1 ⟨[7], [(7, ⟨0, 0, 0⟩)], [], true, 8⟩ 400 7 ⟨0, 0, 0⟩
      (by simp [infoKeysNodup]) rfl,
   stale_cleanup_window.2.1 [100, 200] ⟨[7], [(7, ⟨0, 0, 0⟩)], [], true, 8⟩ 7
      ⟨0, 0, 0⟩ (by simp [infoKeysNodup]) rfl (by simp) (by decide),
   stale_cleanup_window.2.2 [100, 400] ⟨[7], [(7, ⟨0, 0, 0⟩)], [], true, 8⟩ 7
      ⟨0, 0, 0⟩ (by simp [infoKeysNodup]) rfl (by decide)⟩

end MakeMyPC
